import Mathlib

/-!
Shallow embedding of the macro execution subsystem of the lodestone
repository, for checking its natural-language specification.

The embedded code lives in two files of the repository:

* `src/core/src/macro_executor.rs` — the current executor: the
  `TypescriptModuleLoader`, the `MacroExecutor` facade (`spawn`,
  `abort_macro`, `get_macro_status`, `wait_with_timeout`,
  `wait_for_detach`) and the per-execution supervisor thread that
  `spawn` starts.
* `src/src/macro_executor.rs` — the legacy executor, whose
  `TypescriptModuleLoader::load` performs extension and index-file
  inference on local paths.

Pure decision logic (which events a supervisor thread publishes and in
which order, the media-type table, path selection, the exit-status
mirror, PID allocation) is embedded as executable Lean functions;
effects such as filesystem reads, HTTP fetches and the tokio runtime are
abstracted into explicit parameters (an abstract file system record, the
outcomes of `execute_main_module` / `run_event_loop`, the list of bus
events a subscriber observes).
-/

set_option autoImplicit false

namespace Lodestone

/-! ### Data model

`ExitStatus` as constructed in `src/core/src/macro_executor.rs`
(variants `Success { time }`, `Killed { time }`,
`Error { error_msg, time }`; `time` is `chrono::Utc::now().timestamp()`,
an `i64`). -/

inductive ExitStatus where
  | Success (time : Int)
  | Killed (time : Int)
  | Error (error_msg : String) (time : Int)
  deriving DecidableEq, Repr

/-- `MacroEventInner` as matched and constructed in
`src/core/src/macro_executor.rs`: `Started`, `Detach`,
`Stopped { exit_status }`. -/
inductive MacroEventInner where
  | Started
  | Detach
  | Stopped (exit_status : ExitStatus)
  deriving DecidableEq, Repr

/-- `MacroEvent` as constructed in `src/core/src/macro_executor.rs`:
`{ macro_pid, macro_event_inner, instance_uuid }`. The PID is the
transparent `usize` wrapped by `MacroPID`. -/
structure MacroEvent where
  macro_pid : Nat
  macro_event_inner : MacroEventInner
  instance_uuid : Option String
  deriving DecidableEq, Repr

/-- Outcome of one of the two worker phases
(`execute_main_module` / `run_event_loop`): `Ok(())` or `Err(e)` with
the error's rendered message `e.to_string()`. -/
inductive ExecResult where
  | ok
  | err (msg : String)
  deriving DecidableEq, Repr

/-- The sentinel error text recognised at lines 371 and 405 of
`src/core/src/macro_executor.rs`. -/
def sentinelMsg : String := "Uncaught Error: execution terminated"

/-- The message of the defensive terminal event sent at lines 461-474 of
`src/core/src/macro_executor.rs`. -/
def panickedMsg : String := "Macro executor thread unexpectedly panicked"

/-! ### Supervisor event trace

`MacroExecutor::spawn` starts one OS thread per execution
(`src/core/src/macro_executor.rs`, lines 300-476). The bus events that
thread publishes are a pure function of: whether
`deno_core::resolve_path` on the main module succeeded (lines 350-359),
the outcome of `execute_main_module` (lines 370-402) and the outcome of
`run_event_loop` (lines 404-435). The `now` argument stands for
`chrono::Utc::now().timestamp()` at emission time; no claim compares
two distinct timestamps, so a single symbolic instant is threaded
through. -/

/-- Bus events published by the `LocalSet` task spawned at line 307 of
`src/core/src/macro_executor.rs` (lines 350-454): if main-module
resolution fails the task returns before publishing anything; otherwise
it publishes `Started`, then the events of the `execute_main_module`
error branch (which ends in `return`, line 401), or the events of the
`run_event_loop` error branch (which does not return) followed by the
unconditional `Stopped { Success }` of lines 439-450. -/
def spawnLocalEvents (pid : Nat) (uuid : Option String) (now : Int)
    (resolveOk : Bool) (mainRes loopRes : ExecResult) : List MacroEvent :=
  if resolveOk = false then []
  else
    { macro_pid := pid, macro_event_inner := MacroEventInner.Started,
      instance_uuid := uuid } ::
    (match mainRes with
     | ExecResult.err e =>
       if e = sentinelMsg then
         [{ macro_pid := pid,
            macro_event_inner :=
              MacroEventInner.Stopped (ExitStatus.Killed now),
            instance_uuid := uuid }]
       else
         [{ macro_pid := pid,
            macro_event_inner :=
              MacroEventInner.Stopped (ExitStatus.Error e now),
            instance_uuid := uuid }]
     | ExecResult.ok =>
       (match loopRes with
        | ExecResult.err e =>
          if e = sentinelMsg then
            [{ macro_pid := pid,
               macro_event_inner :=
                 MacroEventInner.Stopped (ExitStatus.Killed now),
               instance_uuid := uuid }]
          else
            [{ macro_pid := pid,
               macro_event_inner :=
                 MacroEventInner.Stopped (ExitStatus.Error e now),
               instance_uuid := uuid }]
        | ExecResult.ok => []) ++
       [{ macro_pid := pid,
          macro_event_inner :=
            MacroEventInner.Stopped (ExitStatus.Success now),
          instance_uuid := uuid }])

/-- All bus events published by the supervisor thread: the local task's
events, then — after `rt.block_on(local)` returns — the defensive
`Stopped { Error { "Macro executor thread unexpectedly panicked" } }`
of lines 461-474, which is sent unconditionally. -/
def spawnThreadEvents (pid : Nat) (uuid : Option String) (now : Int)
    (resolveOk : Bool) (mainRes loopRes : ExecResult) : List MacroEvent :=
  spawnLocalEvents pid uuid now resolveOk mainRes loopRes ++
  [{ macro_pid := pid,
     macro_event_inner :=
       MacroEventInner.Stopped (ExitStatus.Error panickedMsg now),
     instance_uuid := uuid }]

/-- Whether an event is a `Stopped` event of the given PID. -/
def isStoppedFor (pid : Nat) (e : MacroEvent) : Bool :=
  e.macro_pid == pid &&
  (match e.macro_event_inner with
   | MacroEventInner.Stopped _ => true
   | _ => false)

/-- Whether an event is the `Started` event of the given PID. -/
def isStartedFor (pid : Nat) (e : MacroEvent) : Bool :=
  e.macro_pid == pid &&
  (match e.macro_event_inner with
   | MacroEventInner.Started => true
   | _ => false)

/-- Number of `Stopped` events for a PID in a bus trace. -/
def countStopped (pid : Nat) (events : List MacroEvent) : Nat :=
  (events.filter (isStoppedFor pid)).length

/-- Number of `Started` events for a PID in a bus trace. -/
def countStarted (pid : Nat) (events : List MacroEvent) : Nat :=
  (events.filter (isStartedFor pid)).length

/-! ### Executor facade: bus consumers

Each consumer subscribes to the broadcaster and walks the events it
receives in bus order; the `List MacroEvent` argument is that observed
sequence (events of non-macro kinds are skipped by every consumer's
`if let EventInner::MacroEvent` pattern and are left out of the model). -/

/-- `MacroExecutor::wait_with_timeout` (lines 545-562 of
`src/core/src/macro_executor.rs`), the body of `exit_future`: loop over
bus events, return the `exit_status` of the first `Stopped` whose PID
matches. `none` models a loop that never finds one. -/
def wait_with_timeout (pid : Nat) (events : List MacroEvent) :
    Option ExitStatus :=
  events.findSome? (fun e =>
    if e.macro_pid == pid then
      match e.macro_event_inner with
      | MacroEventInner.Stopped st => some st
      | _ => none
    else none)

/-- One step of the bus-mirror task spawned in `MacroExecutor::new`
(lines 236-253 of `src/core/src/macro_executor.rs`): on a `Stopped`
event, `exit_status_table.insert(*macro_pid, exit_status.clone())` —
a plain `DashMap::insert`, which overwrites any previous entry. -/
def exitTableStep (table : Nat → Option ExitStatus) (e : MacroEvent) :
    Nat → Option ExitStatus :=
  match e.macro_event_inner with
  | MacroEventInner.Stopped st =>
    fun p => if p = e.macro_pid then some st else table p
  | _ => table

/-- The exit-status table after the mirror task has consumed a bus
trace, starting from the empty table of `MacroExecutor::new`. -/
def exitTableRun (events : List MacroEvent) : Nat → Option ExitStatus :=
  events.foldl exitTableStep (fun _ => none)

/-- `MacroExecutor::get_macro_status` (lines 564-566):
`exit_status_table.get(&pid)`. -/
def get_macro_status (table : Nat → Option ExitStatus) (pid : Nat) :
    Option ExitStatus :=
  table pid

/-- The status of the last `Stopped` event for a PID in a bus trace
(specification-side description of what the overwriting mirror
records). -/
def lastStoppedStatus (pid : Nat) : List MacroEvent → Option ExitStatus
  | [] => none
  | e :: rest =>
    match lastStoppedStatus pid rest with
    | some st => some st
    | none =>
      if e.macro_pid = pid then
        match e.macro_event_inner with
        | MacroEventInner.Stopped st => some st
        | _ => none
      else none

/-- The `Started`-awaiting loop at the end of `MacroExecutor::spawn`
(lines 481-505 of `src/core/src/macro_executor.rs`): walk the bus
events received inside the one-second window, return `Ok(macro_pid)` at
the first `Started` whose PID matches, skip everything else. The empty
remainder models the window closing (the `tokio::time::timeout`
elapsing, or the channel closing), upon which `spawn` returns an error
(`context("Failed to spawn macro")`). -/
def awaitStartedLoop (pid : Nat) : List MacroEvent → Except String Nat
  | [] => Except.error "Failed to spawn macro"
  | e :: rest =>
    match e.macro_event_inner with
    | MacroEventInner.Started =>
      if e.macro_pid == pid then Except.ok e.macro_pid
      else awaitStartedLoop pid rest
    | _ => awaitStartedLoop pid rest

/-! ### PID allocation

`MacroExecutor::spawn` allocates
`MacroPID(self.next_process_id.fetch_add(1, Ordering::SeqCst))`
(line 284); `next_process_id` starts at `0` (line 232) and is only ever
read through `fetch_add`. A sequence of allocations is the sequential
composition of `fetch_add` steps (the atomic makes concurrent calls
linearise into such a sequence). `AtomicUsize::fetch_add` wraps around
on overflow, so the counter lives in `[0, 2^64)` (`usize` is 64 bits
wide on the targets the repository builds for). -/

/-- One more than the largest `usize` value: the modulus at which
`AtomicUsize::fetch_add` wraps. -/
def usizeModulus : Nat := 2 ^ 64

/-- `AtomicUsize::fetch_add(1)`: returns the previous value and stores
the successor, wrapping around at `usize::MAX`. -/
def fetch_add (next_process_id : Nat) : Nat × Nat :=
  (next_process_id, (next_process_id + 1) % usizeModulus)

/-- PIDs returned by `n` consecutive `spawn` calls starting from counter
value `c`, paired with the final counter value. -/
def spawnPids : Nat → Nat → List Nat × Nat
  | c, 0 => ([], c)
  | c, Nat.succ n =>
    let r := fetch_add c
    let rest := spawnPids r.2 n
    (r.1 :: rest.1, rest.2)

/-! ### abort_macro

`MacroExecutor::abort_macro` (lines 514-523 of
`src/core/src/macro_executor.rs`): look the PID up in
`macro_process_table`, return `ErrorKind::NotFound` if absent, else
invoke `terminate_execution()` on the stored `v8::IsolateHandle`.
Handles are identified by a `Nat`; the `terminated` flag records on
which handles `terminate_execution` has been invoked. -/

inductive ErrKind where
  | NotFound
  deriving DecidableEq, Repr

/-- The executor's shared tables, as far as `abort_macro` touches them:
the live process table `MacroPID -> IsolateHandle` and, per isolate
handle, whether `terminate_execution` has been invoked on it. -/
structure ExecutorTables where
  macro_process_table : Nat → Option Nat
  terminated : Nat → Bool

/-- `abort_macro`: `NotFound` when the live table has no entry for the
PID; otherwise invoke the stored handle's `terminate_execution` and
return `Ok(())`. -/
def abort_macro (s : ExecutorTables) (pid : Nat) :
    Except ErrKind ExecutorTables :=
  match s.macro_process_table pid with
  | none => Except.error ErrKind.NotFound
  | some h =>
    Except.ok
      { s with terminated := fun k => if k = h then true else s.terminated k }

/-! ### Module loader

Both loaders branch on a `deno_ast::MediaType` and share the same
media-type table. Paths are modelled as a stem plus an optional final
extension (`Path::with_extension` replaces exactly that component);
the file system is abstract: which paths exist and which are
directories. -/

/-- `deno_ast::MediaType` (the variants matched by the loaders plus the
remaining ones, which all fall into the loaders' catch-all arm). -/
inductive MediaType where
  | JavaScript
  | Jsx
  | Mjs
  | Cjs
  | TypeScript
  | Mts
  | Cts
  | Dts
  | Dmts
  | Dcts
  | Tsx
  | Json
  | Wasm
  | TsBuildInfo
  | SourceMap
  | Unknown
  deriving DecidableEq, Repr

/-- `deno_core::ModuleType` as used by the loaders. -/
inductive ModuleType where
  | JavaScript
  | Json
  deriving DecidableEq, Repr

/-- A filesystem path: stem (everything before the final extension) and
the final extension, if any. -/
structure MPath where
  stem : String
  ext : Option String
  deriving DecidableEq, BEq, Repr

/-- `Path::with_extension`: replace (or add) the final extension. -/
def with_extension (p : MPath) (e : String) : MPath :=
  { stem := p.stem, ext := some e }

/-- `Path::join` with a file name `name.e` (used for `index.ts` /
`index.js` inside a directory). -/
def joinChild (p : MPath) (name : String) (e : Option String) : MPath :=
  { stem := p.stem ++ "/" ++ name, ext := e }

/-- Abstract filesystem state: `pathExists` is `Path::exists`, `isDir`
is `Path::is_dir`. -/
structure FileSys where
  pathExists : MPath → Bool
  isDir : MPath → Bool

/-- `deno_ast::MediaType::from_path` (external library behaviour, keyed
on the final extension; `.d.ts` / `.d.mts` / `.d.cts` map to the
declaration-file variants). -/
def mediaTypeFromPath (p : MPath) : MediaType :=
  match p.ext with
  | some "ts" =>
    if p.stem.endsWith ".d" then MediaType.Dts else MediaType.TypeScript
  | some "mts" =>
    if p.stem.endsWith ".d" then MediaType.Dmts else MediaType.Mts
  | some "cts" =>
    if p.stem.endsWith ".d" then MediaType.Dcts else MediaType.Cts
  | some "tsx" => MediaType.Tsx
  | some "js" => MediaType.JavaScript
  | some "jsx" => MediaType.Jsx
  | some "mjs" => MediaType.Mjs
  | some "cjs" => MediaType.Cjs
  | some "json" => MediaType.Json
  | some "wasm" => MediaType.Wasm
  | some "tsbuildinfo" => MediaType.TsBuildInfo
  | some "map" => MediaType.SourceMap
  | _ => MediaType.Unknown

/-- The `(module_type, should_transpile)` match of
`TypescriptModuleLoader::load` (lines 133-147 and 169-183 of
`src/core/src/macro_executor.rs`, lines 120-134 of
`src/src/macro_executor.rs` — the three copies are textually
identical). `none` is the `_ => bail!(...)` arm. -/
def mediaTypeMapping : MediaType → Option (ModuleType × Bool)
  | MediaType.JavaScript | MediaType.Mjs | MediaType.Cjs =>
    some (ModuleType.JavaScript, false)
  | MediaType.Jsx => some (ModuleType.JavaScript, true)
  | MediaType.TypeScript | MediaType.Mts | MediaType.Cts
  | MediaType.Dts | MediaType.Dmts | MediaType.Dcts
  | MediaType.Tsx => some (ModuleType.JavaScript, true)
  | MediaType.Json => some (ModuleType.Json, false)
  | _ => none

/-- The media-type table as the spec states it, clause by clause:
"JavaScript, Mjs, Cjs → JavaScript, no transpile; Jsx, TypeScript, Mts,
Cts, Tsx, Dts, Dmts, Dcts → JavaScript, transpile; Json → Json, no
transpile; anything else → load fails". Written from the spec's words,
to be compared with `mediaTypeMapping` from the source. -/
def specMediaTypeTable (mt : MediaType) : Option (ModuleType × Bool) :=
  if mt = MediaType.JavaScript ∨ mt = MediaType.Mjs ∨ mt = MediaType.Cjs then
    some (ModuleType.JavaScript, false)
  else if mt = MediaType.Jsx ∨ mt = MediaType.TypeScript ∨
      mt = MediaType.Mts ∨ mt = MediaType.Cts ∨ mt = MediaType.Tsx ∨
      mt = MediaType.Dts ∨ mt = MediaType.Dmts ∨ mt = MediaType.Dcts then
    some (ModuleType.JavaScript, true)
  else if mt = MediaType.Json then
    some (ModuleType.Json, false)
  else
    none

/-- File-scheme branch of the core loader
(`src/core/src/macro_executor.rs`, lines 131-155): the media type is
taken from the path exactly as resolved — no `.ts`/`.js` or
`index.ts`/`index.js` inference — and an unmapped media type fails the
load (`bail!("Unknown extension ...")`) before the file is read. On
success the plan is the path read, its module type and whether the
source is transpiled. -/
def coreLoadFilePlan (p : MPath) : Except String (MPath × ModuleType × Bool) :=
  match mediaTypeMapping (mediaTypeFromPath p) with
  | some (mt, tr) => Except.ok (p, mt, tr)
  | none => Except.error "Unknown extension"

/-- Extension inference of the legacy loader
(`src/src/macro_executor.rs`, lines 99-105): if the path has no
extension and its `.ts` sibling exists, use `.ts`; else if its `.js`
sibling exists (this branch is reached even for paths that do have an
extension), use `.js`; else leave the path unchanged. -/
def legacySelectExtension (fs : FileSys) (path : MPath) : MPath :=
  if path.ext = none ∧ fs.pathExists (with_extension path "ts") = true then
    with_extension path "ts"
  else if fs.pathExists (with_extension path "js") = true then
    with_extension path "js"
  else path

/-- Index-file inference of the legacy loader
(`src/src/macro_executor.rs`, lines 107-117): if the (possibly
rewritten) path is a directory, use `index.ts` inside it when that
exists, else `index.js`. -/
def legacySelectIndex (fs : FileSys) (path : MPath) : MPath :=
  if fs.isDir path = true then
    let index_ts := joinChild path "index" (some "ts")
    if fs.pathExists index_ts = true then index_ts
    else joinChild path "index" (some "js")
  else path

/-- The path the legacy loader actually reads: extension inference,
then index inference. -/
def legacySelectPath (fs : FileSys) (path : MPath) : MPath :=
  legacySelectIndex fs (legacySelectExtension fs path)

/-- File loading in the legacy loader (`src/src/macro_executor.rs`,
lines 94-136): select the concrete path, derive the media type from the
selected path (`MediaType::from(&path)`), then apply the shared
media-type table. -/
def legacyLoadFilePlan (fs : FileSys) (p : MPath) :
    Except String (MPath × ModuleType × Bool) :=
  let chosen := legacySelectPath fs p
  match mediaTypeMapping (mediaTypeFromPath chosen) with
  | some (mt, tr) => Except.ok (chosen, mt, tr)
  | none => Except.error "Unknown extension"

/-- `http`/`https` branch of the core loader
(`src/core/src/macro_executor.rs`, lines 157-185): fail if the response
status is not success; then take the `content-type` header and its
string rendering — `headers().get("content-type")` composed with
`to_str().ok()`, modelled as `Option (Option String)` (header present?,
valid as a string?) — failing with "No content-type header" when the
composition is `none`; then derive the media type from the specifier
and header value (`MediaType::from_content_type`, abstracted as the
function argument `fromContentType`) and apply the shared table. -/
def loadRemotePlan (statusSuccess : Bool)
    (contentTypeHeader : Option (Option String))
    (fromContentType : String → MediaType) :
    Except String (ModuleType × Bool) :=
  if statusSuccess = false then
    Except.error "Failed to fetch module"
  else
    match contentTypeHeader.bind id with
    | none => Except.error "No content-type header"
    | some ct =>
      match mediaTypeMapping (fromContentType ct) with
      | some (mt, tr) => Except.ok (mt, tr)
      | none => Except.error "Unknown content-type"

/-! ### Concrete states used as witnesses -/

/-- A filesystem holding exactly the file `main.ts`, with no
directories. -/
def fsTsOnly : FileSys :=
  { pathExists := fun p => p == { stem := "main", ext := some "ts" },
    isDir := fun _ => false }

/-- Executor tables with one live entry: PID 3 owns isolate handle 9;
no handle terminated yet. -/
def tablesOne : ExecutorTables :=
  { macro_process_table := fun p => if p = 3 then some 9 else none,
    terminated := fun _ => false }

/-! ## Theorems -/

/-- Helper: the overwriting mirror `exitTableStep`, folded over a bus
trace from any initial table, records the status of the last `Stopped`
event for a PID, and falls back to the initial table when there is
none. -/
theorem exitTable_foldl (events : List MacroEvent) (table : Nat → Option ExitStatus)
    (pid : Nat) :
    events.foldl exitTableStep table pid =
      match lastStoppedStatus pid events with
      | some st => some st
      | none => table pid := by
  induction events generalizing table with
  | nil => rfl
  | cons e rest ih =>
    simp only [List.foldl, lastStoppedStatus]
    rw [ih]
    cases hrest : lastStoppedStatus pid rest with
    | some st => rfl
    | none =>
      cases he : e.macro_event_inner with
      | Stopped st =>
        simp only [exitTableStep, he]
        by_cases hp : e.macro_pid = pid
        · simp [hp]
        · simp [hp, Ne.symm hp]
      | Started => simp [exitTableStep, he]
      | Detach => simp [exitTableStep, he]

/-- C1. The claim says exactly one terminal `Stopped` event is
published per PID, with the defensive duplicate possible only on a
Supervisor thread panic, never on a normal run. The code publishes the
defensive `Stopped { Error { "Macro executor thread unexpectedly
panicked" } }` unconditionally after `rt.block_on(local)` returns
(lines 461-474 of `src/core/src/macro_executor.rs`), so a normal
successful run (main module resolves, `execute_main_module` and
`run_event_loop` both return `Ok`) publishes two `Stopped` events for
its PID. -/
theorem normal_run_publishes_two_stopped_events :
    countStopped 0 (spawnThreadEvents 0 none 5 true ExecResult.ok ExecResult.ok) = 2
    ∧ (spawnThreadEvents 0 none 5 true ExecResult.ok ExecResult.ok).map
        MacroEvent.macro_event_inner =
      [MacroEventInner.Started,
       MacroEventInner.Stopped (ExitStatus.Success 5),
       MacroEventInner.Stopped (ExitStatus.Error panickedMsg 5)] := by
  constructor
  · decide
  · decide

/-- C2. The claim says the `Stopped` event's status is `Killed{now}`
when `run_event_loop` returns the sentinel error. The `run_event_loop`
error branch (lines 404-435 of `src/core/src/macro_executor.rs`) is
missing the early `return` that the `execute_main_module` branch has
(line 401), so after publishing `Stopped { Killed }` the task falls
through to the unconditional `Stopped { Success }` of lines 439-450:
the run publishes both a `Killed` and a `Success` terminal status. -/
theorem event_loop_error_also_publishes_success :
    (spawnLocalEvents 0 none 5 true ExecResult.ok
        (ExecResult.err sentinelMsg)).map MacroEvent.macro_event_inner =
      [MacroEventInner.Started,
       MacroEventInner.Stopped (ExitStatus.Killed 5),
       MacroEventInner.Stopped (ExitStatus.Success 5)] := by
  decide

/-- C3 counterexample. When `deno_core::resolve_path` on the main
module fails (lines 350-359 of `src/core/src/macro_executor.rs`), the
local task returns before publishing `Started`, yet the outer thread
wrapper still publishes the defensive `Stopped`: the first (and only)
bus event for PID 42 is a `Stopped`, not `Started`, refuting "the first
event published for that PID is Started". -/
theorem resolve_failure_first_event_is_stopped :
    (spawnThreadEvents 42 none 5 false ExecResult.ok ExecResult.ok).map
        MacroEvent.macro_event_inner =
      [MacroEventInner.Stopped (ExitStatus.Error panickedMsg 5)]
    ∧ (spawnThreadEvents 42 none 5 false ExecResult.ok
        ExecResult.ok).head?.map MacroEvent.macro_event_inner ≠
        some MacroEventInner.Started := by
  constructor
  · decide
  · decide

/-- C3 (amended). In every run whose main-module resolution succeeds,
the first bus event for the PID is `Started`, that `Started` is the
only one (hence it strictly precedes every other event for the PID,
including every `Stopped`), and — resolution succeeding or not — every
event the supervisor thread publishes carries the PID that `spawn`
allocated, so no event for an unallocated PID appears. -/
theorem started_first_and_unique_when_main_module_resolves
    (pid : Nat) (uuid : Option String) (now : Int) (m l : ExecResult) :
    (spawnThreadEvents pid uuid now true m l).head? =
      some { macro_pid := pid, macro_event_inner := MacroEventInner.Started,
             instance_uuid := uuid }
    ∧ countStarted pid (spawnThreadEvents pid uuid now true m l) = 1
    ∧ (spawnThreadEvents pid uuid now true m l).all
        (fun e => e.macro_pid == pid) = true
    ∧ (spawnThreadEvents pid uuid now false m l).all
        (fun e => e.macro_pid == pid) = true := by
  refine ⟨?_, ?_, ?_, ?_⟩ <;>
    cases m <;> cases l <;>
      simp [spawnThreadEvents, spawnLocalEvents, countStarted, isStartedFor,
        List.filter, panickedMsg] <;>
      split <;>
      simp [List.filter]

/-- C4 counterexample. On a normal successful run the first `Stopped`
(which `exit_future` returns) carries `Success`, but the bus mirror's
overwriting `insert` leaves the table holding the status of the
defensive duplicate, `Error { "Macro executor thread unexpectedly
panicked" }`: a later `Stopped` event did change the recorded status,
and `get_status` settles on a status different from the one
`exit_future` resolved with. -/
theorem exit_table_disagrees_with_exit_future_on_normal_run :
    wait_with_timeout 7 (spawnThreadEvents 7 none 5 true ExecResult.ok ExecResult.ok) =
      some (ExitStatus.Success 5)
    ∧ get_macro_status
        (exitTableRun (spawnThreadEvents 7 none 5 true ExecResult.ok ExecResult.ok)) 7 =
      some (ExitStatus.Error panickedMsg 5)
    ∧ (ExitStatus.Error panickedMsg 5 : ExitStatus) ≠ ExitStatus.Success 5 := by
  refine ⟨?_, ?_, ?_⟩
  · decide
  · decide
  · decide

/-- C4 (amended). The exit table treats the last `Stopped` event per
PID as authoritative, not the first: the mirror task's plain
`DashMap::insert` overwrites, so after the mirror has consumed a bus
trace, `get_status(P)` returns the status of the most recent `Stopped`
event for P (and `none` when there was none). It agrees with the first
`Stopped` — the status `exit_future` resolves with — only when the two
coincide. -/
theorem exit_table_records_last_stopped_status (events : List MacroEvent) (pid : Nat) :
    get_macro_status (exitTableRun events) pid = lastStoppedStatus pid events := by
  unfold get_macro_status exitTableRun
  rw [exitTable_foldl]
  cases lastStoppedStatus pid events <;> rfl

/-- C5. `spawn` returns success exactly when the `Started` event for
the newly allocated PID is among the bus events observed inside the
one-second window, and then it returns that PID; if the window closes
without such an event (the timeout elapses, or the channel closes),
`spawn` returns an error. The supervisor thread's own progress is
independent of this gate (`spawnThreadEvents` does not depend on it). -/
theorem spawn_ok_iff_started_observed_within_window (pid : Nat)
    (obs : List MacroEvent) :
    awaitStartedLoop pid obs =
      if obs.any (isStartedFor pid) = true then Except.ok pid
      else Except.error "Failed to spawn macro" := by
  induction obs with
  | nil => rfl
  | cons e rest ih =>
    simp only [List.any_cons]
    obtain ⟨epid, einner, euuid⟩ := e
    cases einner with
    | Started =>
      by_cases hp : epid = pid
      · simp [awaitStartedLoop, isStartedFor, hp]
      · simp [awaitStartedLoop, isStartedFor, hp, ih]
    | Detach => simp [awaitStartedLoop, isStartedFor, ih]
    | Stopped st => simp [awaitStartedLoop, isStartedFor, ih]

/-- C6 counterexample. The core loader
(`src/core/src/macro_executor.rs`, the loader cited by the claim) does
no extension inference: for the extensionless path `main` it fails with
"Unknown extension" without consulting the filesystem — even though in
`fsTsOnly` the sibling `main.ts` exists — refuting "it tries the path
with `.ts` appended and then with `.js`". -/
theorem core_loader_rejects_extensionless_path :
    coreLoadFilePlan { stem := "main", ext := none } =
      Except.error "Unknown extension"
    ∧ fsTsOnly.pathExists { stem := "main", ext := some "ts" } = true := by
  constructor
  · rfl
  · decide

/-- C6 (amended). Only the legacy loader (`src/src/macro_executor.rs`)
performs the inference the claim describes, and for it the claim holds:
an extensionless path is rewritten to its `.ts` sibling when that
exists, else to its `.js` sibling when that exists; a path that is (or
remains) a directory is rewritten to `index.ts` inside it when that
exists, else to `index.js`; and the media type of a successful load is
derived from the path actually chosen. The core loader maps the path as
given and fails on extensionless paths. -/
theorem legacy_loader_extension_and_index_inference (fs : FileSys) (s : String) :
    (fs.pathExists { stem := s, ext := some "ts" } = true →
       fs.isDir { stem := s, ext := some "ts" } = false →
       legacySelectPath fs { stem := s, ext := none } = { stem := s, ext := some "ts" })
    ∧ (fs.pathExists { stem := s, ext := some "ts" } = false →
       fs.pathExists { stem := s, ext := some "js" } = true →
       fs.isDir { stem := s, ext := some "js" } = false →
       legacySelectPath fs { stem := s, ext := none } = { stem := s, ext := some "js" })
    ∧ (fs.pathExists { stem := s, ext := some "ts" } = false →
       fs.pathExists { stem := s, ext := some "js" } = false →
       fs.isDir { stem := s, ext := none } = true →
       legacySelectPath fs { stem := s, ext := none } =
         (if fs.pathExists { stem := s ++ "/" ++ "index", ext := some "ts" } = true
          then { stem := s ++ "/" ++ "index", ext := some "ts" }
          else { stem := s ++ "/" ++ "index", ext := some "js" }))
    ∧ (∀ q mt tr, legacyLoadFilePlan fs { stem := s, ext := none } =
         Except.ok (q, mt, tr) →
       mediaTypeMapping (mediaTypeFromPath q) = some (mt, tr)) := by
  refine ⟨?_, ?_, ?_, ?_⟩
  · intro h1 h2
    simp [legacySelectPath, legacySelectExtension, legacySelectIndex,
      with_extension, h1, h2]
  · intro h1 h2 h3
    simp [legacySelectPath, legacySelectExtension, legacySelectIndex,
      with_extension, h1, h2, h3]
  · intro h1 h2 h3
    simp [legacySelectPath, legacySelectExtension, legacySelectIndex,
      with_extension, joinChild, h1, h2, h3]
  · intro q mt tr h
    unfold legacyLoadFilePlan at h
    simp only [] at h
    split at h
    · rename_i mt2 tr2 heq
      cases h
      exact heq
    · exact absurd h (by simp)

/-- C6 witness: in the filesystem holding exactly `main.ts`, the legacy
loader resolves the extensionless specifier `main` to `main.ts`. -/
theorem legacy_loader_inference_witness :
    legacySelectPath fsTsOnly { stem := "main", ext := none } =
      { stem := "main", ext := some "ts" } :=
  (legacy_loader_extension_and_index_inference fsTsOnly "main").1 (by decide) (by decide)

/-- C7. The `(module_type, should_transpile)` match of the loaders
coincides, media type by media type, with the table of the spec:
JavaScript, Mjs, Cjs pass through untranspiled; Jsx, TypeScript, Mts,
Cts, Tsx, Dts, Dmts, Dcts transpile to JavaScript; Json stays Json
untranspiled; every other media type fails the load. -/
theorem media_type_mapping_matches_spec_table :
    ∀ mt : MediaType, mediaTypeMapping mt = specMediaTypeTable mt := by
  intro mt
  cases mt <;> rfl

/-- C8. `abort_macro` returns `NotFound` exactly when the PID has no
entry in the live process table; when an entry exists it invokes
`terminate_execution` on exactly the stored handle and returns
success; and the invocation touches no other handle and leaves the
process table itself unchanged, so aborting an already-exited PID never
terminates a distinct (e.g. freshly allocated) PID's isolate. -/
theorem abort_not_found_iff_absent_and_frame (s : ExecutorTables) (pid : Nat) :
    (s.macro_process_table pid = none ↔
       abort_macro s pid = Except.error ErrKind.NotFound)
    ∧ (∀ h, s.macro_process_table pid = some h →
        abort_macro s pid =
          Except.ok
            { s with terminated := fun k => if k = h then true else s.terminated k })
    ∧ (∀ h k t, s.macro_process_table pid = some h → k ≠ h →
        abort_macro s pid = Except.ok t →
        t.terminated k = s.terminated k
          ∧ t.macro_process_table = s.macro_process_table) := by
  refine ⟨?_, ?_, ?_⟩
  · constructor
    · intro h
      unfold abort_macro
      rw [h]
    · intro h
      unfold abort_macro at h
      cases hs : s.macro_process_table pid with
      | none => rfl
      | some v => rw [hs] at h; exact absurd h (by simp)
  · intro h hh
    unfold abort_macro
    rw [hh]
  · intro h k t hh hk ha
    unfold abort_macro at ha
    rw [hh] at ha
    cases ha
    constructor
    · simp [hk]
    · rfl

/-- C8 witness: in `tablesOne` (PID 3 live with handle 9), aborting the
never-allocated PID 5 returns `NotFound`. -/
theorem abort_unknown_pid_not_found_witness :
    abort_macro tablesOne 5 = Except.error ErrKind.NotFound :=
  (abort_not_found_iff_absent_and_frame tablesOne 5).1.mp (by decide)

/-- C9 counterexample. `AtomicUsize::fetch_add` wraps: two allocations
from the counter value `usize::MAX` return the PIDs
`[usize::MAX, 0]` — not strictly increasing, and the second PID, `0`,
reuses the very first PID the executor ever allocated. The claim's
unconditional "strictly increasing and never reused, for any set of
spawn calls" is therefore false of the wrapping counter. -/
theorem pid_counter_wraps_at_usize_max :
    (spawnPids (usizeModulus - 1) 2).1 = [usizeModulus - 1, 0]
    ∧ ¬ List.Pairwise (fun a b => a < b) ((spawnPids (usizeModulus - 1) 2).1) := by
  have h : (spawnPids (usizeModulus - 1) 2).1 = [usizeModulus - 1, 0] := by
    decide
  refine ⟨h, ?_⟩
  rw [h]
  simp [List.pairwise_cons]

/-- Helper: as long as the set of allocations stays below the wrap
bound (`c + n ≤ 2^64`), the PIDs of `n` consecutive allocations from
counter `c` are the interval `[c, c + n)`. -/
theorem spawnPids_fst_of_le (c n : Nat) (hbound : c + n ≤ usizeModulus) :
    (spawnPids c n).1 = List.range' c n := by
  induction n generalizing c with
  | zero => rfl
  | succ n ih =>
    rcases Nat.lt_or_ge (c + 1) usizeModulus with hlt | hge
    · have hmod : (c + 1) % usizeModulus = c + 1 := Nat.mod_eq_of_lt hlt
      simp [spawnPids, fetch_add, List.range', hmod, ih (c + 1) (by omega)]
    · have hn : n = 0 := by omega
      subst hn
      simp [spawnPids, fetch_add, List.range']

/-- C9 (amended). As long as the executor performs fewer than `2^64`
allocations over its lifetime — the counter starts at `0`, so a set of
`n` spawn calls beginning at counter value `c` stays below the wrap
bound whenever `c + n ≤ 2^64` — the returned PIDs are strictly
increasing in allocation order (hence pairwise distinct and never
reused), each lies in `[c, c + n)`, and each is strictly greater than
every PID allocated before the set began (those are all `< c`). Past
the wrap bound `fetch_add` wraps to `0` and PIDs repeat. -/
theorem spawned_pids_strictly_increasing_below_wrap (c n : Nat)
    (hbound : c + n ≤ usizeModulus) :
    List.Pairwise (fun a b => a < b) (spawnPids c n).1
    ∧ (∀ p, p ∈ (spawnPids c n).1 → c ≤ p ∧ p < c + n)
    ∧ (∀ old, old < c → ∀ p, p ∈ (spawnPids c n).1 → old < p) := by
  rw [spawnPids_fst_of_le c n hbound]
  refine ⟨List.pairwise_lt_range' c n, ?_, ?_⟩
  · intro p hp
    exact List.mem_range'_1.mp hp
  · intro old hold p hp
    have := (List.mem_range'_1.mp hp).1
    omega

/-- C9 witness: three spawns from counter 5 (well below the wrap
bound) return pairwise strictly increasing PIDs. -/
theorem spawned_pids_below_wrap_witness :
    List.Pairwise (fun a b => a < b) (spawnPids 5 3).1 :=
  (spawned_pids_strictly_increasing_below_wrap 5 3 (by decide)).1

/-- C10. A remote (`http`/`https`) load whose response has a success
status but no `content-type` header — or a header value that is not
valid as a string, so that `to_str().ok()` is `None` — fails with
"No content-type header", whatever `MediaType::from_content_type`
would have returned: a content-type header is required to load any
remote module. -/
theorem remote_load_requires_content_type (fromContentType : String → MediaType) :
    loadRemotePlan true none fromContentType =
      Except.error "No content-type header"
    ∧ loadRemotePlan true (some none) fromContentType =
      Except.error "No content-type header" :=
  ⟨rfl, rfl⟩

end Lodestone
